import Mathlib

/-!
Verification of the task-management HTTP API (FastAPI + Firestore backend).

The request handlers in `main.py` are embedded shallowly: each handler becomes
a pure Lean function from the document store (and the already-verified subject
id decoded from the `id-token` header) to a response together with the new
store.  The third-party document store (Firestore) is not part of the
repository; its operations (`get`, `set`/`update` with field merge, `delete`,
equality-filtered query) are modelled on an association list of
(document id, task) pairs, following the Task Store Gateway contract of the
specification.  The third-party identity provider (Firebase Auth) is likewise
modelled as an association list from email to subject id.
-/

namespace TaskAPI

/-- One stored task document of the `tasks` collection.  Fields mirror the
dict written by `create_task` in `main.py`: `title`, `description` and
`completed` may hold JSON null (an explicit null survives the pydantic models
into the store), `userId` is the owner subject id and `createdAt` the
server-assigned creation timestamp (modelled as a natural number). -/
structure Task where
  title : Option String
  description : Option String
  completed : Option Bool
  userId : String
  createdAt : Nat
deriving DecidableEq

/-- The `tasks` collection: document id paired with the document data. -/
abbrev Store := List (String × Task)

/-- Modelled from the spec: the Task Store Gateway operation `get(id)`
(Firestore `document(id).get()`, client library not under src/): the document
stored under `id`, or `none` when absent. -/
def storeGet : Store → String → Option Task
  | [], _ => none
  | (k, t) :: s, id => if k = id then some t else storeGet s id

/-- Modelled from the spec: the Task Store Gateway write-back used by
`update(id, fields)` (Firestore `document(id).update(...)`, client library not
under src/): replaces the document stored under `id`, leaving every other
document untouched; a no-op on an id that is absent. -/
def storeSet : Store → String → Task → Store
  | [], _, _ => []
  | (k, t₀) :: s, id, t =>
    if k = id then (k, t) :: storeSet s id t else (k, t₀) :: storeSet s id t

/-- Modelled from the spec: the Task Store Gateway operation `delete(id)`
(Firestore `document(id).delete()`, client library not under src/): removes
the document stored under `id`. -/
def storeErase : Store → String → Store
  | [], _ => []
  | (k, t₀) :: s, id => if k = id then storeErase s id else (k, t₀) :: storeErase s id

/-- An HTTP handler outcome: a success payload, or an `HTTPException` carrying
a status code and a detail string. -/
inductive Resp (α : Type) where
  | ok (value : α)
  | error (code : Nat) (detail : String)
deriving DecidableEq

/-- The pydantic request model `TaskCreate` of `main.py`: `title` is a
required string; `description` and `completed` are `Optional`, so an explicit
JSON null is accepted and parses to `none`.  A body with the `completed` field
absent parses with the pydantic default `completed := some false`. -/
structure TaskCreate where
  title : String
  description : Option String
  completed : Option Bool
deriving DecidableEq

/-- The pydantic request model `TaskUpdate` of `main.py`, as seen through
`dict(exclude_unset=True)`: for each field, `none` means the field was absent
from the request body, `some v` means the field was supplied with value `v`
(where `v = none` is an explicit JSON null). -/
structure TaskUpdate where
  title : Option (Option String)
  description : Option (Option String)
  completed : Option (Option Bool)
deriving DecidableEq

/-- A raw creation request body as the client sends it: the three `TaskCreate`
fields plus attempted `userId` and `createdAt` fields, which the pydantic
model does not declare and therefore silently drops. -/
structure RawTaskBody where
  title : String
  description : Option String
  completed : Option Bool
  userId : Option String
  createdAt : Option Nat
deriving DecidableEq

/-- Pydantic validation of a raw body against `TaskCreate`: keeps the declared
fields and drops the undeclared `userId` and `createdAt`. -/
def parseTaskCreate (b : RawTaskBody) : TaskCreate :=
  { title := b.title, description := b.description, completed := b.completed }

/-- Handler `create_task` (`POST /tasks/`) of `main.py`: builds the task dict
from the validated body, overwrites `userId` with the subject id decoded from
the token and `createdAt` with the server clock (`now`), and inserts it under
a fresh document id (`newId`), returning that id. -/
def create_task (s : Store) (task_data : TaskCreate) (uid : String) (now : Nat)
    (newId : String) : Resp String × Store :=
  let task : Task :=
    { title := some task_data.title
      description := task_data.description
      completed := task_data.completed
      userId := uid
      createdAt := now }
  (Resp.ok newId, (newId, task) :: s)

/-- Handler `get_tasks` (`GET /tasks/`) of `main.py`: the equality-filtered
query `where('userId', '==', uid)`, returning each matching document together
with its id. -/
def get_tasks (s : Store) (uid : String) : List (String × Task) :=
  s.filter (fun p => p.2.userId == uid)

/-- Field merge performed by `task_ref.update(update_dict)` in `update_task`:
each field present in the `exclude_unset` dict overwrites the stored field
(an explicit null overwrites with null); absent fields are untouched. -/
def applyUpdate (t : Task) (u : TaskUpdate) : Task :=
  { t with
    title := match u.title with | none => t.title | some v => v
    description := match u.description with | none => t.description | some v => v
    completed := match u.completed with | none => t.completed | some v => v }

/-- Handler `update_task` (`PUT /tasks/{task_id}`) of `main.py`: 404 when the
document is absent, 403 when its `userId` differs from the caller's subject
id, otherwise merges the supplied fields and reports success. -/
def update_task (s : Store) (task_id : String) (updated_data : TaskUpdate)
    (uid : String) : Resp String × Store :=
  match storeGet s task_id with
  | none => (Resp.error 404 "Task not found", s)
  | some task =>
    if task.userId ≠ uid then
      (Resp.error 403 "Not authorized to update this task", s)
    else
      (Resp.ok "Task updated successfully", storeSet s task_id (applyUpdate task updated_data))

/-- Handler `delete_task` (`DELETE /tasks/{task_id}`) of `main.py`: 404 when
the document is absent, 403 when its `userId` differs from the caller's
subject id, otherwise deletes the document and reports success. -/
def delete_task (s : Store) (task_id : String) (uid : String) : Resp String × Store :=
  match storeGet s task_id with
  | none => (Resp.error 404 "Task not found", s)
  | some task =>
    if task.userId ≠ uid then
      (Resp.error 403 "Not authorized to delete this task", s)
    else
      (Resp.ok "Task deleted successfully", storeErase s task_id)

/-- Handler `toggle_task_complete` (`PATCH /tasks/{task_id}`) of `main.py`:
404 when the document is absent, 403 when its `userId` differs from the
caller's subject id, otherwise reads `completed`, treats null as false, and
writes back the negation. -/
def toggle_task_complete (s : Store) (task_id : String) (uid : String) :
    Resp String × Store :=
  match storeGet s task_id with
  | none => (Resp.error 404 "Task not found", s)
  | some task =>
    if task.userId ≠ uid then
      (Resp.error 403 "Not authorized to update this task", s)
    else
      let current_completed := task.completed.getD false
      (Resp.ok "Task completion toggled successfully",
        storeSet s task_id { task with completed := some (!current_completed) })

/-- The pydantic request model `UserSignin` of `main.py`. -/
structure UserSignin where
  email : String
  password : String
deriving DecidableEq

/-- Modelled from the spec: the identity provider's principal registry
(Firebase Auth, not under src/) as a map from email to subject id;
`auth.get_user_by_email` is lookup in this map. -/
def lookupEmail : List (String × String) → String → Option String
  | [], _ => none
  | (e, u) :: rest, email => if e = email then some u else lookupEmail rest email

/-- Handler `signin` (`POST /auth/signin`) of `main.py`: looks the principal
up by email and returns its subject id, answering 401 when the lookup fails.
The password field of the body is never consulted. -/
def signin (users : List (String × String)) (user_data : UserSignin) : Resp String :=
  match lookupEmail users user_data.email with
  | some uid => Resp.ok uid
  | none => Resp.error 401 "Invalid email or password"

/-- A mutation step against the tasks collection: one `update_task` or one
`toggle_task_complete` request, with its target id and caller subject id. -/
inductive TaskOp where
  | updateOp (task_id : String) (u : TaskUpdate) (uid : String)
  | toggleOp (task_id : String) (uid : String)

/-- The store after serving one mutation request. -/
def applyTaskOp (s : Store) : TaskOp → Store
  | .updateOp id u uid => (update_task s id u uid).2
  | .toggleOp id uid => (toggle_task_complete s id uid).2

/-- The store after serving a sequence of mutation requests. -/
def applyTaskOps (s : Store) (ops : List TaskOp) : Store :=
  ops.foldl applyTaskOp s

/-! ### Store lemmas -/

theorem storeGet_storeSet_self (s : Store) (id : String) (t t₀ : Task)
    (h : storeGet s id = some t₀) : storeGet (storeSet s id t) id = some t := by
  induction s with
  | nil => simp [storeGet] at h
  | cons p rest ih =>
    obtain ⟨k, t₁⟩ := p
    by_cases hk : k = id
    · subst hk
      simp [storeGet, storeSet]
    · simp only [storeGet, if_neg hk] at h
      simp only [storeSet, if_neg hk, storeGet]
      exact ih h

theorem storeGet_storeSet_ne (s : Store) (id id' : String) (t : Task) (h : id' ≠ id) :
    storeGet (storeSet s id t) id' = storeGet s id' := by
  induction s with
  | nil => rfl
  | cons p rest ih =>
    obtain ⟨k, t₁⟩ := p
    by_cases hk : k = id
    · subst hk
      simp only [storeSet, if_pos rfl, storeGet]
      rw [if_neg (Ne.symm h), if_neg (Ne.symm h)]
      exact ih
    · simp only [storeSet, if_neg hk, storeGet]
      by_cases hk' : k = id'
      · rw [if_pos hk', if_pos hk']
      · rw [if_neg hk', if_neg hk']
        exact ih

theorem storeGet_storeErase_self (s : Store) (id : String) :
    storeGet (storeErase s id) id = none := by
  induction s with
  | nil => rfl
  | cons p rest ih =>
    obtain ⟨k, t₁⟩ := p
    by_cases hk : k = id
    · simp only [storeErase, if_pos hk]
      exact ih
    · simp only [storeErase, if_neg hk, storeGet, if_neg hk]
      exact ih

/-! ### Claim theorems -/

/-- Claim C1: for every (task, principal) pair where the authenticated
principal's subject id differs from the task's `userId`, each of
`update_task`, `delete_task` and `toggle_task_complete` answers 403 with a
fixed detail string that carries none of the task's contents, and returns the
store exactly as it was. -/
theorem C1_foreign_task_forbidden_and_unmodified (s : Store) (id uid : String)
    (t : Task) (u : TaskUpdate) (h : storeGet s id = some t) (hne : t.userId ≠ uid) :
    update_task s id u uid = (Resp.error 403 "Not authorized to update this task", s) ∧
    delete_task s id uid = (Resp.error 403 "Not authorized to delete this task", s) ∧
    toggle_task_complete s id uid = (Resp.error 403 "Not authorized to update this task", s) := by
  refine ⟨?_, ?_, ?_⟩ <;>
    simp [update_task, delete_task, toggle_task_complete, h, hne]

theorem C1_witness :
    storeGet [("t1", Task.mk (some "a") none (some false) "u1" 0)] "t1"
        = some (Task.mk (some "a") none (some false) "u1" 0) ∧
    update_task [("t1", Task.mk (some "a") none (some false) "u1" 0)] "t1"
        (TaskUpdate.mk none none none) "u2"
      = (Resp.error 403 "Not authorized to update this task",
         [("t1", Task.mk (some "a") none (some false) "u1" 0)]) :=
  ⟨by decide,
   (C1_foreign_task_forbidden_and_unmodified
      [("t1", Task.mk (some "a") none (some false) "u1" 0)] "t1" "u2"
      (Task.mk (some "a") none (some false) "u1" 0)
      (TaskUpdate.mk none none none) (by decide) (by decide)).1⟩

/-- Claim C2: a created task is stored with `userId` equal to the subject id
resolved from the credential and `createdAt` equal to the server clock; the
client-supplied `userId` and `createdAt` fields of the raw body are dropped by
validation and have no effect on the result. -/
theorem C2_create_sets_owner_and_timestamp (s : Store) (title : String)
    (descr : Option String) (compl : Option Bool) (cuid : Option String)
    (cts : Option Nat) (uid : String) (now : Nat) (newId : String) :
    (create_task s (parseTaskCreate (RawTaskBody.mk title descr compl cuid cts))
        uid now newId).1 = Resp.ok newId ∧
    storeGet (create_task s (parseTaskCreate (RawTaskBody.mk title descr compl cuid cts))
        uid now newId).2 newId = some (Task.mk (some title) descr compl uid now) ∧
    ∀ cuid' cts',
      create_task s (parseTaskCreate (RawTaskBody.mk title descr compl cuid' cts'))
          uid now newId
        = create_task s (parseTaskCreate (RawTaskBody.mk title descr compl cuid cts))
            uid now newId := by
  refine ⟨rfl, ?_, fun _ _ => rfl⟩
  simp [create_task, storeGet, parseTaskCreate]

/-- Claim C4: `get_tasks` returns exactly the documents of the store whose
`userId` equals the caller's subject id, each paired with its document id, and
never a task owned by a different principal. -/
theorem C4_listing_owner_scoped (s : Store) (uid : String) (p : String × Task) :
    p ∈ get_tasks s uid ↔ p ∈ s ∧ p.2.userId = uid := by
  simp [get_tasks, List.mem_filter]

/-- Behaviour of `update_task` on an absent document id. -/
theorem update_task_absent (s : Store) (id : String) (u : TaskUpdate) (uid : String)
    (h : storeGet s id = none) :
    update_task s id u uid = (Resp.error 404 "Task not found", s) := by
  simp [update_task, h]

/-- Behaviour of `update_task` on a document owned by another principal. -/
theorem update_task_forbidden (s : Store) (id uid : String) (t : Task)
    (u : TaskUpdate) (h : storeGet s id = some t) (hne : t.userId ≠ uid) :
    update_task s id u uid
      = (Resp.error 403 "Not authorized to update this task", s) := by
  simp [update_task, h, hne]

/-- Behaviour of `update_task` on a document owned by the caller. -/
theorem update_task_owned (s : Store) (id : String) (u : TaskUpdate) (uid : String)
    (t : Task) (h : storeGet s id = some t) (hu : t.userId = uid) :
    update_task s id u uid
      = (Resp.ok "Task updated successfully", storeSet s id (applyUpdate t u)) := by
  simp [update_task, h, hu]

/-- Behaviour of `toggle_task_complete` on an absent document id. -/
theorem toggle_task_complete_absent (s : Store) (id uid : String)
    (h : storeGet s id = none) :
    toggle_task_complete s id uid = (Resp.error 404 "Task not found", s) := by
  simp [toggle_task_complete, h]

/-- Behaviour of `toggle_task_complete` on a document owned by another
principal. -/
theorem toggle_task_complete_forbidden (s : Store) (id uid : String) (t : Task)
    (h : storeGet s id = some t) (hne : t.userId ≠ uid) :
    toggle_task_complete s id uid
      = (Resp.error 403 "Not authorized to update this task", s) := by
  simp [toggle_task_complete, h, hne]

/-- Behaviour of `toggle_task_complete` on a document owned by the caller:
`completed` is read with null collapsing to false, negated and written back. -/
theorem toggle_task_complete_owned (s : Store) (id uid : String) (t : Task)
    (h : storeGet s id = some t) (hu : t.userId = uid) :
    toggle_task_complete s id uid
      = (Resp.ok "Task completion toggled successfully",
         storeSet s id { t with completed := some (!(t.completed.getD false)) }) := by
  simp [toggle_task_complete, h, hu]

/-- Serving one `update_task` or `toggle_task_complete` request never changes
the `userId` field of any stored document. -/
theorem userId_applyTaskOp (s : Store) (op : TaskOp) (id : String) :
    (storeGet (applyTaskOp s op) id).map Task.userId
      = (storeGet s id).map Task.userId := by
  have hset : ∀ (tid : String) (task t' : Task), storeGet s tid = some task →
      t'.userId = task.userId →
      (storeGet (storeSet s tid t') id).map Task.userId
        = (storeGet s id).map Task.userId := by
    intro tid task t' hE hu
    by_cases hid : id = tid
    · subst hid
      rw [storeGet_storeSet_self s id t' task hE, hE]
      simp [hu]
    · rw [storeGet_storeSet_ne s tid id t' hid]
  cases op with
  | updateOp tid u uid =>
    show (storeGet (update_task s tid u uid).2 id).map Task.userId
        = (storeGet s id).map Task.userId
    cases hE : storeGet s tid with
    | none => rw [update_task_absent s tid u uid hE]
    | some task =>
      by_cases hu : task.userId = uid
      · rw [update_task_owned s tid u uid task hE hu]
        exact hset tid task _ hE rfl
      · rw [update_task_forbidden s tid uid task u hE hu]
  | toggleOp tid uid =>
    show (storeGet (toggle_task_complete s tid uid).2 id).map Task.userId
        = (storeGet s id).map Task.userId
    cases hE : storeGet s tid with
    | none => rw [toggle_task_complete_absent s tid uid hE]
    | some task =>
      by_cases hu : task.userId = uid
      · rw [toggle_task_complete_owned s tid uid task hE hu]
        exact hset tid task _ hE rfl
      · rw [toggle_task_complete_forbidden s tid uid task hE hu]

/-- Serving any sequence of `update_task` and `toggle_task_complete` requests
never changes the `userId` field of any stored document. -/
theorem userId_applyTaskOps (s : Store) (ops : List TaskOp) (id : String) :
    (storeGet (applyTaskOps s ops) id).map Task.userId
      = (storeGet s id).map Task.userId := by
  induction ops generalizing s with
  | nil => rfl
  | cons op rest ih =>
    exact (ih (applyTaskOp s op)).trans (userId_applyTaskOp s op id)

/-- Claim C3: the owner field is set at creation to the creating principal's
subject id, and after any sequence of `update_task` and
`toggle_task_complete` requests — by any callers, with any bodies — the task
still stores that same `userId`. -/
theorem C3_owner_immutable (s : Store) (b : TaskCreate) (uid : String) (now : Nat)
    (newId : String) (ops : List TaskOp) (t : Task)
    (h : storeGet (applyTaskOps (create_task s b uid now newId).2 ops) newId = some t) :
    t.userId = uid := by
  have hinv := userId_applyTaskOps (create_task s b uid now newId).2 ops newId
  rw [h] at hinv
  have hcreate : storeGet (create_task s b uid now newId).2 newId
      = some (Task.mk (some b.title) b.description b.completed uid now) := by
    simp [create_task, storeGet]
  rw [hcreate] at hinv
  simpa using hinv

theorem C3_witness :
    (Task.mk (some "b") none (some true) "u1" 0).userId = "u1" :=
  C3_owner_immutable [] (TaskCreate.mk "a" none (some false)) "u1" 0 "t1"
    [TaskOp.updateOp "t1" (TaskUpdate.mk (some (some "b")) none none) "u1",
     TaskOp.toggleOp "t1" "u1"]
    (Task.mk (some "b") none (some true) "u1" 0) (by decide)

/-- Claim C5 counterexample: a task whose stored `completed` field is null
(reachable by creating it with an explicit null `completed`) does not regain
its original `completed` value after two toggles by its owner: the field ends
as `false`, while it was null originally. -/
theorem C5_counterexample :
    (storeGet (toggle_task_complete
        (toggle_task_complete [("t1", Task.mk (some "a") none none "u1" 0)]
          "t1" "u1").2 "t1" "u1").2 "t1").map Task.completed
      ≠ (storeGet [("t1", Task.mk (some "a") none none "u1" 0)] "t1").map
          Task.completed := by
  decide

/-- Claim C5 (amended): for every existing caller-owned task whose `completed`
field holds a boolean, applying `toggle_task_complete` twice returns
`completed` to its original value. -/
theorem C5_toggle_involution (s : Store) (id uid : String) (t : Task) (b : Bool)
    (h : storeGet s id = some t) (hu : t.userId = uid) (hb : t.completed = some b) :
    (storeGet (toggle_task_complete (toggle_task_complete s id uid).2 id uid).2
        id).map Task.completed = some t.completed := by
  have h1 : toggle_task_complete s id uid
      = (Resp.ok "Task completion toggled successfully",
         storeSet s id { t with completed := some (!b) }) := by
    rw [toggle_task_complete_owned s id uid t h hu, hb]
    simp
  have h1s : (toggle_task_complete s id uid).2
      = storeSet s id { t with completed := some (!b) } :=
    congrArg Prod.snd h1
  have hg1 : storeGet (toggle_task_complete s id uid).2 id
      = some { t with completed := some (!b) } := by
    rw [h1s]
    exact storeGet_storeSet_self s id _ t h
  have hu1 : ({ t with completed := some (!b) } : Task).userId = uid := hu
  have h2 : toggle_task_complete (toggle_task_complete s id uid).2 id uid
      = (Resp.ok "Task completion toggled successfully",
         storeSet (toggle_task_complete s id uid).2 id
           { t with completed := some b }) := by
    rw [toggle_task_complete_owned _ id uid _ hg1 hu1]
    simp
  have h2s : (toggle_task_complete (toggle_task_complete s id uid).2 id uid).2
      = storeSet (toggle_task_complete s id uid).2 id
          { t with completed := some b } :=
    congrArg Prod.snd h2
  rw [h2s, storeGet_storeSet_self _ id _ _ hg1, hb]
  rfl

theorem C5_witness :
    (storeGet (toggle_task_complete (toggle_task_complete
        [("t1", Task.mk (some "a") none (some false) "u1" 0)] "t1" "u1").2
        "t1" "u1").2 "t1").map Task.completed = some (some false) :=
  C5_toggle_involution [("t1", Task.mk (some "a") none (some false) "u1" 0)]
    "t1" "u1" (Task.mk (some "a") none (some false) "u1" 0) false
    (by decide) rfl rfl

/-- Claim C6: `update_task` with a body in which no field was supplied leaves
the store observationally unchanged (every document reads back exactly as
before) and still answers Success. -/
theorem C6_empty_update_noop (s : Store) (id uid : String) (t : Task)
    (h : storeGet s id = some t) (hu : t.userId = uid) :
    (update_task s id (TaskUpdate.mk none none none) uid).1
        = Resp.ok "Task updated successfully" ∧
    ∀ id', storeGet (update_task s id (TaskUpdate.mk none none none) uid).2 id'
        = storeGet s id' := by
  have hne : ¬ t.userId ≠ uid := fun hc => hc hu
  have happ : applyUpdate t (TaskUpdate.mk none none none) = t := rfl
  have hres : update_task s id (TaskUpdate.mk none none none) uid
      = (Resp.ok "Task updated successfully", storeSet s id t) := by
    simp [update_task, h, hne, happ]
  refine ⟨by rw [hres], fun id' => ?_⟩
  rw [hres]
  by_cases hid : id' = id
  · subst hid
    rw [storeGet_storeSet_self s id' t t h, h]
  · exact storeGet_storeSet_ne s id id' t hid

theorem C6_witness :
    (update_task [("t1", Task.mk (some "a") none (some false) "u1" 0)] "t1"
        (TaskUpdate.mk none none none) "u1").1 = Resp.ok "Task updated successfully" ∧
    storeGet (update_task [("t1", Task.mk (some "a") none (some false) "u1" 0)]
        "t1" (TaskUpdate.mk none none none) "u1").2 "t1"
      = storeGet [("t1", Task.mk (some "a") none (some false) "u1" 0)] "t1" :=
  ⟨(C6_empty_update_noop [("t1", Task.mk (some "a") none (some false) "u1" 0)]
      "t1" "u1" (Task.mk (some "a") none (some false) "u1" 0) (by decide) rfl).1,
   (C6_empty_update_noop [("t1", Task.mk (some "a") none (some false) "u1" 0)]
      "t1" "u1" (Task.mk (some "a") none (some false) "u1" 0) (by decide) rfl).2 "t1"⟩

/-- Claim C7: deleting an absent id answers 404 and changes nothing, and a
second delete of an id just deleted successfully also answers 404, never
silent success. -/
theorem C7_delete_not_found_idempotent (s : Store) (id uid : String) :
    (storeGet s id = none →
      delete_task s id uid = (Resp.error 404 "Task not found", s)) ∧
    ∀ v s', delete_task s id uid = (Resp.ok v, s') →
      delete_task s' id uid = (Resp.error 404 "Task not found", s') := by
  constructor
  · intro h
    simp [delete_task, h]
  · intro v s' h
    have hs' : s' = storeErase s id := by
      cases hE : storeGet s id with
      | none => simp [delete_task, hE] at h
      | some task =>
        by_cases hu : task.userId ≠ uid
        · simp [delete_task, hE, hu] at h
        · simp only [delete_task, hE, if_neg hu, Prod.mk.injEq] at h
          exact h.2.symm
    subst hs'
    simp [delete_task, storeGet_storeErase_self]

theorem C7_witness :
    delete_task ([] : Store) "t1" "u1" = (Resp.error 404 "Task not found", []) ∧
    delete_task [("t1", Task.mk (some "a") none (some false) "u1" 0)] "t1" "u1"
      = (Resp.ok "Task deleted successfully", ([] : Store)) ∧
    delete_task ([] : Store) "t1" "u1" = (Resp.error 404 "Task not found", []) :=
  ⟨(C7_delete_not_found_idempotent [] "t1" "u1").1 rfl,
   by decide,
   (C7_delete_not_found_idempotent
      [("t1", Task.mk (some "a") none (some false) "u1" 0)] "t1" "u1").2
     "Task deleted successfully" [] (by decide)⟩

/-- Claim C8 counterexample: a creation request whose `title` is the empty
string is accepted and persisted — the stored task has the empty string as
its title, so persisted tasks do not all have non-empty titles. -/
theorem C8_counterexample :
    (create_task [] (parseTaskCreate (RawTaskBody.mk "" none (some false) none none))
        "u1" 0 "t1").1 = Resp.ok "t1" ∧
    storeGet (create_task []
        (parseTaskCreate (RawTaskBody.mk "" none (some false) none none))
        "u1" 0 "t1").2 "t1"
      = some (Task.mk (some "") none (some false) "u1" 0) := by
  constructor <;> rfl

/-- Claim C8 (amended): every creation request carries a string `title`
(presence and string type are enforced by the request schema), and the task is
persisted with exactly that title; the empty string is accepted and persisted
like any other title — non-emptiness is not enforced. -/
theorem C8_title_persisted_verbatim (s : Store) (b : RawTaskBody) (uid : String)
    (now : Nat) (newId : String) :
    (create_task s (parseTaskCreate b) uid now newId).1 = Resp.ok newId ∧
    (storeGet (create_task s (parseTaskCreate b) uid now newId).2 newId).map
        Task.title = some (some b.title) := by
  refine ⟨rfl, ?_⟩
  simp [create_task, storeGet, parseTaskCreate]

/-- Claim C9: `signin` never reads the password: two signin bodies with the
same email and different passwords get identical responses, namely the
principal's subject id on success when the email is registered and 401
otherwise. -/
theorem C9_signin_ignores_password (users : List (String × String))
    (email p₁ p₂ : String) :
    signin users (UserSignin.mk email p₁) = signin users (UserSignin.mk email p₂) ∧
    signin users (UserSignin.mk email p₁)
      = (match lookupEmail users email with
         | some uid => Resp.ok uid
         | none => Resp.error 401 "Invalid email or password") :=
  ⟨rfl, rfl⟩

/-- Claim C10: in `update_task`, a field explicitly present with value null is
applied, while an absent field is not: a body whose `title` entry is an
explicit null overwrites the stored title with null, whereas a body without a
`title` entry leaves the stored title as it was. -/
theorem C10_null_vs_absent (s : Store) (id uid : String) (t : Task)
    (h : storeGet s id = some t) (hu : t.userId = uid) :
    ((update_task s id (TaskUpdate.mk (some none) none none) uid).1
        = Resp.ok "Task updated successfully" ∧
      (storeGet (update_task s id (TaskUpdate.mk (some none) none none) uid).2
          id).map Task.title = some none) ∧
    ((update_task s id (TaskUpdate.mk none none none) uid).1
        = Resp.ok "Task updated successfully" ∧
      (storeGet (update_task s id (TaskUpdate.mk none none none) uid).2
          id).map Task.title = some t.title) := by
  have hne : ¬ t.userId ≠ uid := fun hc => hc hu
  have hres : ∀ u : TaskUpdate, update_task s id u uid
      = (Resp.ok "Task updated successfully", storeSet s id (applyUpdate t u)) := by
    intro u
    simp [update_task, h, hne]
  have hget : ∀ u : TaskUpdate,
      storeGet (update_task s id u uid).2 id = some (applyUpdate t u) := by
    intro u
    rw [hres u]
    exact storeGet_storeSet_self s id _ t h
  refine ⟨⟨by rw [hres], ?_⟩, ⟨by rw [hres], ?_⟩⟩
  · rw [hget (TaskUpdate.mk (some none) none none)]
    rfl
  · rw [hget (TaskUpdate.mk none none none)]
    rfl

theorem C10_witness :
    ((update_task [("t1", Task.mk (some "a") none (some false) "u1" 0)] "t1"
        (TaskUpdate.mk (some none) none none) "u1").1
        = Resp.ok "Task updated successfully" ∧
      (storeGet (update_task [("t1", Task.mk (some "a") none (some false) "u1" 0)]
          "t1" (TaskUpdate.mk (some none) none none) "u1").2 "t1").map Task.title
        = some none) ∧
    ((update_task [("t1", Task.mk (some "a") none (some false) "u1" 0)] "t1"
        (TaskUpdate.mk none none none) "u1").1
        = Resp.ok "Task updated successfully" ∧
      (storeGet (update_task [("t1", Task.mk (some "a") none (some false) "u1" 0)]
          "t1" (TaskUpdate.mk none none none) "u1").2 "t1").map Task.title
        = some (some "a")) :=
  C10_null_vs_absent [("t1", Task.mk (some "a") none (some false) "u1" 0)]
    "t1" "u1" (Task.mk (some "a") none (some false) "u1" 0) (by decide) rfl

end TaskAPI
